import Mathlib

/-!
Shallow embedding of the porepy Darcy-equation tutorial
(src/tutorials/Darcy_equation.py) and of the small slice of the porepy
library surface the tutorial calls into.  The notebook itself defines the
classes MatrixDomain, FractureDomain and DarcyMPFA and a driver function
assign_darcy_data; those are translated directly from the source.  The
library entry points (CartGrid, data.Parameters, elliptic.Elliptic,
meshing.cart_grid, compute_geometry) are not part of the supplied sources,
so they are modelled from the specification text, each such definition
carrying a doc comment that says so.

Machine reals of the notebook are embedded as exact rationals.
-/

/-- Face tags of porepy.grids.grid.FaceTag, as far as the tutorial uses
them: the tutorial reads BOUNDARY for the single-grid case and
DOMAIN_BOUNDARY inside MatrixDomain.bc. -/
inductive FaceTag where
  | boundary
  | domainBoundary
  | fracture
  | tip
deriving DecidableEq

/-- Shallow model of a porepy grid object: the topological dimension, the
cell count and the per-face tag sets are the only parts of the grid the
tutorial code reads. -/
structure Grid where
  dim : Nat
  num_cells : Nat
  faceTags : List (List FaceTag)
deriving DecidableEq

/-- Number of faces of the grid. -/
def Grid.num_faces (g : Grid) : Nat := g.faceTags.length

/-- Model of g.has_face_tag(t): the boolean mask over the faces of g. -/
def Grid.has_face_tag (g : Grid) (t : FaceTag) : List Bool :=
  g.faceTags.map (fun tags => decide (t ∈ tags))

/-- Model of numpy.zeros(n): a vector of n zeros. -/
def npZeros (n : Nat) : List ℚ := List.replicate n 0

/-- Model of numpy.ones(n): a vector of n ones. -/
def npOnes (n : Nat) : List ℚ := List.replicate n 1

/-- Model of the broadcast product c * a of a scalar and a numpy array. -/
def npScale (c : ℚ) (xs : List ℚ) : List ℚ := xs.map (fun x => c * x)

/-- Model of the numpy indexed assignment a[i] = v: in bounds it updates
one entry, out of bounds it raises IndexError, modelled as none. -/
def npSetItem (xs : List ℚ) (i : Nat) (v : ℚ) : Option (List ℚ) :=
  if i < xs.length then some (xs.set i v) else none

/-- Model of np.ravel(np.argwhere(bs)): the indices of the true entries of
the boolean mask, in increasing order. -/
def ravelArgwhere (bs : List Bool) : List Nat :=
  (List.range bs.length).filter (fun i => bs.getD i false)

/-- Model of the Python expression round(n / 2) for a natural number n:
true division followed by rounding half to even (Python 3 banker's
rounding). -/
def pyRoundHalf (n : Nat) : Nat :=
  if n % 2 = 0 then n / 2
  else if (n / 2) % 2 = 0 then n / 2 else n / 2 + 1

/-- Tags carried by an outer face of a Cartesian grid. -/
def outerFaceTags : List FaceTag := [FaceTag.boundary, FaceTag.domainBoundary]

/-- Face tag layout of a 1-d Cartesian grid with n cells: n + 1 faces, the
two endpoint faces are on the boundary. -/
def cartFaceTags1 (n : Nat) : List (List FaceTag) :=
  (List.range (n + 1)).map (fun k => if k = 0 ∨ k = n then outerFaceTags else [])

/-- Face tag layout of a 2-d Cartesian grid with nx * ny cells: first the
(nx + 1) * ny vertical faces column-major inside each row, then the
nx * (ny + 1) horizontal faces; the outermost ones are on the boundary. -/
def cartFaceTags2 (nx ny : Nat) : List (List FaceTag) :=
  ((List.range ((nx + 1) * ny)).map (fun k =>
    if k % (nx + 1) = 0 ∨ k % (nx + 1) = nx then outerFaceTags else [])) ++
  ((List.range (nx * (ny + 1))).map (fun k =>
    if k / nx = 0 ∨ k / nx = ny then outerFaceTags else []))

/-- Modelled from the spec: porepy.grids.structured.CartGrid is library
code not under src.  A Cartesian grid on dims = [nx, ny] is the tensor
product of nx and ny unit cells, so it has nx * ny cells, and its faces
are the vertical and horizontal cell interfaces with the outer ones tagged
BOUNDARY and DOMAIN_BOUNDARY. -/
def CartGrid (dims : List Nat) : Grid :=
  match dims with
  | [n] => { dim := 1, num_cells := n, faceTags := cartFaceTags1 n }
  | [nx, ny] => { dim := 2, num_cells := nx * ny, faceTags := cartFaceTags2 nx ny }
  | _ => { dim := dims.length, num_cells := dims.prod, faceTags := [] }

/-- Model of porepy params.tensor.SecondOrder as the tutorial builds it:
a dimension and the xx-diagonal of the permeability tensor. -/
structure SecondOrderTensor where
  dim : Nat
  kxx : List ℚ
deriving DecidableEq

/-- Model of porepy params.bc.BoundaryCondition as the tutorial builds it:
the grid, the faces singled out, and the condition label per such face. -/
structure BoundaryCondition where
  grid : Grid
  faces : List Nat
  cond : List String
deriving DecidableEq

/-- Body of MatrixDomain.bc from the notebook: collect the faces tagged
DOMAIN_BOUNDARY and mark each of them with the label dir. -/
def MatrixDomain.bc (g : Grid) : BoundaryCondition :=
  let dir_bound := ravelArgwhere (g.has_face_tag FaceTag.domainBoundary)
  { grid := g, faces := dir_bound, cond := List.replicate dir_bound.length "dir" }

/-- Body of FractureDomain.permeability from the notebook:
kxx = 100 * np.ones(num_cells), wrapped as tensor.SecondOrder(2, kxx). -/
def FractureDomain.permeability (g : Grid) : SecondOrderTensor :=
  { dim := 2, kxx := npScale 100 (npOnes g.num_cells) }

/-- Body of FractureDomain.source from the notebook:
val = np.ones(num_cells); val[round(num_cells / 2)] = 1; return val. -/
def FractureDomain.source (g : Grid) : Option (List ℚ) :=
  npSetItem (npOnes g.num_cells) (pyRoundHalf g.num_cells) 1

/-- Body of FractureDomain.aperture from the notebook:
val = 0.01 * np.ones(num_cells); return val. -/
def FractureDomain.aperture (g : Grid) : List ℚ :=
  npScale (1 / 100) (npOnes g.num_cells)

/-- Small concrete grid used by the closed witness theorems. -/
def gExample : Grid := CartGrid [3, 2]

/-- Providers of the entry points the notebook invokes: the porepy
library, numpy, the Python builtins, or (hypothetically) code implemented
in the notebook itself. -/
inductive Provider where
  | porepy
  | numpy
  | pythonBuiltin
  | localCode
deriving DecidableEq

/-- Call sites of the single-grid cells of the notebook, one constructor
per invocation, named after the callee. -/
inductive LibCall where
  | cartGridNew
  | computeGeometryCall
  | parametersNew
  | hasFaceTagCall
  | argwhereCall
  | ravelCall
  | boundaryConditionNew
  | listRepeatLiteral
  | zerosCall
  | setItemAssign
  | setBcCall
  | setSourceCall
  | dictLiteral
  | ellipticNew
  | solveCall
  | plotGridCall
deriving DecidableEq

/-- Which library provides each entry point, read off the import cell of
the notebook (porepy modules, numpy, and plain Python literals). -/
def provider : LibCall → Provider
  | .cartGridNew => .porepy
  | .computeGeometryCall => .porepy
  | .parametersNew => .porepy
  | .hasFaceTagCall => .porepy
  | .argwhereCall => .numpy
  | .ravelCall => .numpy
  | .boundaryConditionNew => .porepy
  | .listRepeatLiteral => .pythonBuiltin
  | .zerosCall => .numpy
  | .setItemAssign => .numpy
  | .setBcCall => .porepy
  | .setSourceCall => .porepy
  | .dictLiteral => .pythonBuiltin
  | .ellipticNew => .porepy
  | .solveCall => .porepy
  | .plotGridCall => .porepy

/-- The four glue steps the spec ascribes to the single-grid run. -/
inductive GlueStep where
  | makeGrid
  | wrapParams
  | runSolve
  | plotResult
deriving DecidableEq

/-- Position of each glue step in the order the spec states. -/
def stepIndex : GlueStep → Nat
  | .makeGrid => 0
  | .wrapParams => 1
  | .runSolve => 2
  | .plotResult => 3

/-- Glue step each call site belongs to. -/
def stepOf : LibCall → GlueStep
  | .cartGridNew => .makeGrid
  | .computeGeometryCall => .makeGrid
  | .parametersNew => .wrapParams
  | .hasFaceTagCall => .wrapParams
  | .argwhereCall => .wrapParams
  | .ravelCall => .wrapParams
  | .boundaryConditionNew => .wrapParams
  | .listRepeatLiteral => .wrapParams
  | .zerosCall => .wrapParams
  | .setItemAssign => .wrapParams
  | .setBcCall => .wrapParams
  | .setSourceCall => .wrapParams
  | .dictLiteral => .wrapParams
  | .ellipticNew => .runSolve
  | .solveCall => .runSolve
  | .plotGridCall => .plotResult

/-- Grid cell of the notebook: g = CartGrid([11, 11]); g.compute_geometry(). -/
def gridCellTrace : List LibCall := [.cartGridNew, .computeGeometryCall]

/-- Parameter cell of the notebook, in evaluation order: Parameters(g),
the boundary mask g.has_face_tag wrapped in argwhere and ravel, the
BoundaryCondition built from the dir label list, the zero source vector
with its single overwritten entry, the two setter calls, and the data
dictionary literal. -/
def paramCellTrace : List LibCall :=
  [.parametersNew, .hasFaceTagCall, .argwhereCall, .ravelCall,
   .listRepeatLiteral, .boundaryConditionNew, .zerosCall, .setItemAssign,
   .setBcCall, .setSourceCall, .dictLiteral]

/-- Solve cell of the notebook: Elliptic(g, d), solve(), plot_grid(g, p). -/
def solveCellTrace : List LibCall := [.ellipticNew, .solveCall, .plotGridCall]

/-- Complete trace of the single-grid portion of the notebook. -/
def singleGridScript : List LibCall :=
  gridCellTrace ++ paramCellTrace ++ solveCellTrace

/-- Grid-bucket node: one member grid with its data dictionary; dictionary
values are modelled as cell vectors, which is all the mixed-dimensional
part of the tutorial stores under a plain string key. -/
structure GridNode where
  grid : Grid
  data : List (String × List ℚ)
deriving DecidableEq

/-- Shallow model of a porepy GridBucket: the member grids with their
data, the coupling edges, and the optional node ordering.  Each edge
(lo, hi, pairs) relates node lo (the lower-dimensional grid) to node hi,
with pairs listing which cell of the lower grid lies on which face of the
higher grid. -/
structure GridBucket where
  nodes : List GridNode
  edges : List (Nat × Nat × List (Nat × Nat))
  nodeOrdering : Option (List Nat)
deriving DecidableEq

/-- Total number of cells over all member grids of a bucket. -/
def GridBucket.totalCells (gb : GridBucket) : Nat :=
  (gb.nodes.map (fun n => n.grid.num_cells)).sum

/-- Modelled from the spec: GridBucket.assign_node_ordering is library
code not under src; it numbers the bucket nodes across dimensions and
changes neither the member grids nor the coupling edges. -/
def GridBucket.assign_node_ordering (gb : GridBucket) : GridBucket :=
  { gb with nodeOrdering := some (List.range gb.nodes.length) }

/-- Axis-aligned fracture, given by its two endpoints on the integer
lattice, the way the tutorial writes f = np.array([[0, 10], [5, 5]]) for
the segment from (0, 5) to (10, 5). -/
structure Fracture where
  x0 : Int
  y0 : Int
  x1 : Int
  y1 : Int
deriving DecidableEq

/-- The fracture of the notebook, from (0, 5) to (10, 5). -/
def fExample : Fracture := { x0 := 0, y0 := 5, x1 := 10, y1 := 5 }

/-- Number of unit cells an axis-aligned fracture is cut into. -/
def Fracture.cellCount (f : Fracture) : Nat :=
  max (f.x1 - f.x0).natAbs (f.y1 - f.y0).natAbs

/-- Modelled from the spec: the 1-d grid meshing.cart_grid builds for one
fracture, one unit cell per lattice segment. -/
def fractureGrid (f : Fracture) : Grid := CartGrid [f.cellCount]

/-- Modelled from the spec: the mortar pairs of one fracture inside a
2-d Cartesian grid on [nx, ny] cells.  Cell j of a horizontal fracture at
height y0 starting at x0 lies on the horizontal matrix face of row y0 and
column x0 + j; a vertical fracture uses the vertical faces symmetrically.
Faces are indexed as in cartFaceTags2: the (nx + 1) * ny vertical faces
first, then the horizontal ones row by row. -/
def fractureCoupling (nx ny : Nat) (f : Fracture) : List (Nat × Nat) :=
  if f.y0 = f.y1 then
    (List.range f.cellCount).map (fun j =>
      (j, (nx + 1) * ny + f.y0.toNat * nx + (f.x0.toNat + j)))
  else
    (List.range f.cellCount).map (fun j =>
      (j, (f.y0.toNat + j) * (nx + 1) + f.x0.toNat))

/-- Modelled from the spec: porepy.fracs.meshing.cart_grid is library code
not under src.  It builds the mixed-dimensional bucket for a fractured
Cartesian domain: the 2-d matrix grid, one lower-dimensional grid per
fracture, and one coupling edge per fracture relating the cells of its 1-d
grid to the matrix faces they lie on.  No node ordering is assigned yet. -/
def cart_grid (fracs : List Fracture) (dims : List Nat) : GridBucket :=
  match dims with
  | [nx, ny] =>
    { nodes := { grid := CartGrid [nx, ny], data := [] } ::
        fracs.map (fun f => { grid := fractureGrid f, data := [] }),
      edges := (List.range fracs.length).map (fun k =>
        (k + 1, 0, fractureCoupling nx ny (fracs.getD k fExample))),
      nodeOrdering := none }
  | _ => { nodes := [], edges := [], nodeOrdering := none }

/-- Coupling edge sanity: both endpoints exist, the lower grid is one
dimension below the higher one, the pairs cover every cell of the lower
grid in order, and every matrix face index is in bounds. -/
def validEdge (gb : GridBucket) (e : Nat × Nat × List (Nat × Nat)) : Bool :=
  match gb.nodes.get? e.1, gb.nodes.get? e.2.1 with
  | some lo, some hi =>
      (lo.grid.dim + 1 == hi.grid.dim) &&
      (e.2.2.map Prod.fst == List.range lo.grid.num_cells) &&
      e.2.2.all (fun cf => decide (cf.2 < hi.grid.num_faces))
  | _, _ => false

/-- Modelled from the spec: porepy.params.data.Parameters is library code
not under src.  It is the per-grid storage for physical parameters
(permeability tensor, aperture, source term, boundary condition), each
table keyed by the problem-physics label. -/
structure Parameters where
  grid : Grid
  bcTable : List (String × BoundaryCondition)
  sourceTable : List (String × List ℚ)
  tensorTable : List (String × SecondOrderTensor)
  apertureTable : List (String × List ℚ)
deriving DecidableEq

/-- Modelled from the spec: data.Parameters(g) starts with empty tables. -/
def Parameters.new (g : Grid) : Parameters :=
  { grid := g, bcTable := [], sourceTable := [], tensorTable := [],
    apertureTable := [] }

/-- Modelled from the spec: param.set_bc(physics, v) records the boundary
condition under its physics label and touches no other table. -/
def Parameters.set_bc (p : Parameters) (physics : String)
    (v : BoundaryCondition) : Parameters :=
  { p with bcTable := (physics, v) :: p.bcTable }

/-- Modelled from the spec: param.set_source(physics, v) records the
source vector under its physics label and touches no other table. -/
def Parameters.set_source (p : Parameters) (physics : String)
    (v : List ℚ) : Parameters :=
  { p with sourceTable := (physics, v) :: p.sourceTable }

/-- Boundary condition currently stored under a physics label. -/
def Parameters.get_bc (p : Parameters) (physics : String) :
    Option BoundaryCondition :=
  p.bcTable.lookup physics

/-- Source term currently stored under a physics label. -/
def Parameters.get_source (p : Parameters) (physics : String) :
    Option (List ℚ) :=
  p.sourceTable.lookup physics

/-- Elliptic problem object: the bucket it was built on and the solution
vector of the last solve (empty before any solve). -/
structure EllipticProblem where
  gb : GridBucket
  sol : List ℚ
deriving DecidableEq

/-- Modelled from the spec: elliptic.Elliptic(gb) stores the bucket; no
solution exists yet. -/
def ellipticBaseConstruct (gb : GridBucket) : EllipticProblem :=
  { gb := gb, sol := [] }

/-- Modelled from the spec: the pressure values the assembled linear
system is solved for.  The assembly and the linear algebra live in the
external library; what the driver guarantees, and what we model, is that
the solve yields one scalar potential value per cell of the bucket. -/
def pressureField (gb : GridBucket) : List ℚ :=
  List.map (fun i => ((i : Nat) : ℚ)) (List.range gb.totalCells)

/-- Modelled from the spec: problem.solve() applies the boundary
conditions, solves the linear system for the scalar pressure, returns the
solution vector and keeps it on the problem object. -/
def EllipticProblem.solve (e : EllipticProblem) : List ℚ × EllipticProblem :=
  let p := pressureField e.gb
  (p, { e with sol := p })

/-- Distribute a global cell vector over the bucket nodes: each node
receives the next num_cells entries under the given key, on top of its
data dictionary. -/
def splitNodes (key : String) : List GridNode → List ℚ → List GridNode
  | [], _ => []
  | n :: rest, x =>
    { n with data := (key, x.take n.grid.num_cells) :: n.data } ::
      splitNodes key rest (x.drop n.grid.num_cells)

/-- Modelled from the spec: problem.split(key) distributes the stored
solution back into each sub-grid node under the given label. -/
def EllipticProblem.split (e : EllipticProblem) (key : String) :
    EllipticProblem :=
  { e with gb := { e.gb with nodes := splitNodes key e.gb.nodes e.sol } }

/-- Offset of node i in the global cell vector: the cells of the nodes
before it. -/
def cellOffset (ns : List GridNode) (i : Nat) : Nat :=
  ((ns.take i).map (fun n => n.grid.num_cells)).sum

/-- Concrete mixed-dimensional bucket of the notebook, used by the closed
witness theorems. -/
def gbExample : GridBucket := cart_grid [fExample] [10, 10]

/-- Method bodies that can sit in a class dictionary: the ones the
notebook defines plus the library ones the tutorial relies on. -/
inductive MethodImpl where
  | ellipticDataBaseNew
  | matrixDomainNew
  | matrixDomainBc
  | fractureDomainNewTypo
  | fractureDomainPermeability
  | fractureDomainSource
  | fractureDomainAperture
  | ellipticBaseNew
  | ellipticFluxDisc
  | ellipticSolveImpl
  | ellipticSplitImpl
  | darcyMpfaNew
  | darcyMpfaFluxDisc
deriving DecidableEq

/-- Python class as the attribute machinery sees it: a name and the
method dictionary built from the class body. -/
structure PyClass where
  clsName : String
  methods : List (String × MethodImpl)
deriving DecidableEq

/-- Python attribute lookup along a method resolution order: the first
class whose dictionary defines the name wins. -/
def mroLookup : List PyClass → String → Option MethodImpl
  | [], _ => none
  | c :: rest, attr =>
    match c.methods.lookup attr with
    | some m => some m
    | none => mroLookup rest attr

/-- Modelled from the spec: class dictionary of elliptic.EllipticData,
library code not under src; the tutorial relies on its __init__ and the
default parameter methods it installs. -/
def ellipticDataCls : PyClass :=
  { clsName := "EllipticData", methods := [("__init__", .ellipticDataBaseNew)] }

/-- Class dictionary of MatrixDomain as the notebook writes it: a real
__init__ delegating to the base class, and the overloaded bc. -/
def matrixDomainCls : PyClass :=
  { clsName := "MatrixDomain",
    methods := [("__init__", .matrixDomainNew), ("bc", .matrixDomainBc)] }

/-- Class dictionary of FractureDomain as the notebook writes it: the
method spelled __init (two trailing underscores are missing), and the
three overloaded parameter methods.  No entry is named __init__. -/
def fractureDomainCls : PyClass :=
  { clsName := "FractureDomain",
    methods := [("__init", .fractureDomainNewTypo),
                ("permeability", .fractureDomainPermeability),
                ("source", .fractureDomainSource),
                ("aperture", .fractureDomainAperture)] }

/-- Method resolution order of MatrixDomain. -/
def matrixDomainMro : List PyClass := [matrixDomainCls, ellipticDataCls]

/-- Method resolution order of FractureDomain. -/
def fractureDomainMro : List PyClass :=
  [fractureDomainCls, matrixDomainCls, ellipticDataCls]

/-- Modelled from the spec: class dictionary of elliptic.Elliptic, library
code not under src, with its constructor, the default flux_disc, solve and
split. -/
def ellipticCls : PyClass :=
  { clsName := "Elliptic",
    methods := [("__init__", .ellipticBaseNew),
                ("flux_disc", .ellipticFluxDisc),
                ("solve", .ellipticSolveImpl),
                ("split", .ellipticSplitImpl)] }

/-- Class dictionary of DarcyMPFA as the notebook writes it: an __init__
delegating to Elliptic, and the overloaded flux_disc. -/
def darcyMpfaCls : PyClass :=
  { clsName := "DarcyMPFA",
    methods := [("__init__", .darcyMpfaNew), ("flux_disc", .darcyMpfaFluxDisc)] }

/-- Method resolution order of Elliptic. -/
def ellipticMro : List PyClass := [ellipticCls]

/-- Method resolution order of DarcyMPFA. -/
def darcyMpfaMro : List PyClass := [darcyMpfaCls, ellipticCls]

/-- Flux discretizer objects a flux_disc body can return: the two
finite-volume schemes the spec names. -/
inductive FluxDiscretizer where
  | tpfaMixDim
  | mpfaMixDim
deriving DecidableEq

/-- Value each flux_disc implementation returns.  The Elliptic default is
modelled from the spec (the base driver uses the TPFA discretization);
the DarcyMPFA body, return mpfa.MpfaMixDim(), is from the notebook. -/
def fluxDiscResult : MethodImpl → Option FluxDiscretizer
  | .ellipticFluxDisc => some .tpfaMixDim
  | .darcyMpfaFluxDisc => some .mpfaMixDim
  | _ => none

/-- Constructor semantics of the Elliptic family on a bucket.  The
DarcyMPFA body is the notebook line Elliptic.__init__(self, gb), so it
produces exactly the base construction. -/
def constructorSem : MethodImpl → GridBucket → Option EllipticProblem
  | .ellipticBaseNew, gb => some (ellipticBaseConstruct gb)
  | .darcyMpfaNew, gb => some (ellipticBaseConstruct gb)
  | _, _ => none

/-- Object state an EllipticData-family constructor produces: the grid
and the data dictionary it was given. -/
structure ProblemData where
  grid : Grid
  d : List (String × List ℚ)
deriving DecidableEq

/-- Constructor semantics of the EllipticData family.  The MatrixDomain
body is the notebook line EllipticData.__init__(self, g, d), so it
produces exactly the base construction, modelled from the spec as storing
the grid and its data. -/
def dataConstructorSem : MethodImpl → Grid → List (String × List ℚ) →
    Option ProblemData
  | .ellipticDataBaseNew, g, d => some { grid := g, d := d }
  | .matrixDomainNew, g, d => some { grid := g, d := d }
  | _, _, _ => none

/-- Raw description a grid hands to compute_geometry: planar node
coordinates, each face as its pair of end nodes, and each cell as its
node loop in order. -/
structure GridTopology where
  nodes : List (ℚ × ℚ)
  faceNodes : List (Nat × Nat)
  cellNodes : List (List Nat)
deriving DecidableEq

/-- Geometric quantities compute_geometry fills in.  Face areas are
carried squared so everything stays in exact arithmetic; the stored face
normal is the edge vector rotated a quarter turn, whose length is the face
area. -/
structure GridGeometry where
  face_centers : List (ℚ × ℚ)
  face_normals : List (ℚ × ℚ)
  face_areas_sq : List ℚ
  cell_centers : List (ℚ × ℚ)
  cell_volumes : List ℚ
deriving DecidableEq

/-- Coordinates of node i, with the origin for an out-of-range index. -/
def nodeAt (t : GridTopology) (i : Nat) : ℚ × ℚ := t.nodes.getD i (0, 0)

/-- Midpoint of a face from its two end nodes. -/
def faceCenter (t : GridTopology) (fn : Nat × Nat) : ℚ × ℚ :=
  let a := nodeAt t fn.1
  let b := nodeAt t fn.2
  ((a.1 + b.1) / 2, (a.2 + b.2) / 2)

/-- Face normal: the edge vector rotated a quarter turn. -/
def faceNormal (t : GridTopology) (fn : Nat × Nat) : ℚ × ℚ :=
  let a := nodeAt t fn.1
  let b := nodeAt t fn.2
  (b.2 - a.2, a.1 - b.1)

/-- Squared face area: squared length of the edge vector. -/
def faceAreaSq (t : GridTopology) (fn : Nat × Nat) : ℚ :=
  let a := nodeAt t fn.1
  let b := nodeAt t fn.2
  (b.1 - a.1) ^ 2 + (b.2 - a.2) ^ 2

/-- Twice the signed area of a polygon, by the shoelace formula over the
cyclically consecutive vertex pairs. -/
def polyDoubleArea (ps : List (ℚ × ℚ)) : ℚ :=
  ((ps.zip (ps.rotate 1)).map
    (fun ab => ab.1.1 * ab.2.2 - ab.2.1 * ab.1.2)).sum

/-- Cell volume (planar area): half the absolute shoelace value. -/
def cellVolume (t : GridTopology) (c : List Nat) : ℚ :=
  |polyDoubleArea (c.map (nodeAt t))| / 2

/-- Cell center: the mean of the cell node coordinates. -/
def cellCenter (t : GridTopology) (c : List Nat) : ℚ × ℚ :=
  let ps := c.map (nodeAt t)
  ((ps.map Prod.fst).sum / ps.length, (ps.map Prod.snd).sum / ps.length)

/-- Modelled from the spec: Grid.compute_geometry is library code not
under src; it computes the cell centers, cell volumes, face normals and
face areas of a grid from the raw node coordinates and the cell, face and
node connectivity, and from nothing else. -/
def compute_geometry (t : GridTopology) : GridGeometry :=
  { face_centers := t.faceNodes.map (faceCenter t),
    face_normals := t.faceNodes.map (faceNormal t),
    face_areas_sq := t.faceNodes.map (faceAreaSq t),
    cell_centers := t.cellNodes.map (cellCenter t),
    cell_volumes := t.cellNodes.map (cellVolume t) }

/-- Unit square topology, used by the closed witness theorems. -/
def tExample : GridTopology :=
  { nodes := [(0, 0), (1, 0), (1, 1), (0, 1)],
    faceNodes := [(0, 1), (1, 2), (2, 3), (3, 0)],
    cellNodes := [[0, 1, 2, 3]] }

/-- The same unit square written with different rational numerals, so the
hypotheses of the determinism theorem are discharged on two syntactically
distinct inputs. -/
def tExampleB : GridTopology :=
  { nodes := [(0, 0), (2 / 2, 0), (1, 3 - 2), (0, 1)],
    faceNodes := [(0, 1), (1, 2), (2, 3), (3, 0)],
    cellNodes := [[0, 1, 2, 3]] }

/-- Overwriting one entry of a constant vector with the same constant is
the identity. -/
theorem set_replicate_self {α : Type} (a : α) :
    ∀ (n i : Nat), (List.replicate n a).set i a = List.replicate n a := by
  intro n
  induction n with
  | zero => intro i; rfl
  | succ m ih =>
    intro i
    cases i with
    | zero => rfl
    | succ j => simp [List.replicate_succ, ih j]

/-- Rounding half of a positive number to the nearest even integer stays
below the number itself, so the central index is always in bounds. -/
theorem pyRoundHalf_lt (n : Nat) (h : 0 < n) : pyRoundHalf n < n := by
  unfold pyRoundHalf
  split
  · omega
  · split <;> omega

/-- Claim C7: for every fracture grid, FractureDomain.aperture assigns one
effective thickness per lower-dimensional cell: a vector of length equal
to the number of cells whose every entry is 0.01. -/
theorem C7_aperture_per_cell (g : Grid) :
    (FractureDomain.aperture g).length = g.num_cells ∧
    ∀ x ∈ FractureDomain.aperture g, x = 1 / 100 := by
  constructor
  · simp [FractureDomain.aperture, npScale, npOnes]
  · intro x hx
    simp only [FractureDomain.aperture, npScale, npOnes, List.mem_map] at hx
    obtain ⟨a, ha, rfl⟩ := hx
    rw [List.eq_of_mem_replicate ha]
    norm_num

/-- Witness for C7 at the concrete grid CartGrid [3, 2], exhibiting a
member of the aperture vector. -/
theorem C7_aperture_witness :
    (FractureDomain.aperture gExample).length = gExample.num_cells ∧
    ((1 : ℚ) / 100 = 1 / 100) :=
  ⟨(C7_aperture_per_cell gExample).1,
   (C7_aperture_per_cell gExample).2 (1 / 100)
     (by simp [FractureDomain.aperture, npScale, npOnes, gExample, CartGrid])⟩

/-- Claim C8: for every fracture grid with at least one cell,
FractureDomain.source returns the all-ones vector: the write
val[round(num_cells / 2)] = 1 after val = np.ones(num_cells) hits an
in-bounds index and leaves the vector unchanged. -/
theorem C8_source_all_ones (g : Grid) (h : 0 < g.num_cells) :
    FractureDomain.source g = some (npOnes g.num_cells) := by
  unfold FractureDomain.source npSetItem
  rw [if_pos]
  · rw [npOnes, set_replicate_self]
  · simpa [npOnes] using pyRoundHalf_lt g.num_cells h

/-- Witness for C8 at the concrete grid CartGrid [3, 2]. -/
theorem C8_source_witness :
    FractureDomain.source gExample = some (npOnes gExample.num_cells) :=
  C8_source_all_ones gExample (by decide)

/-- Claim C10: CartGrid [11, 11] has 121 cells, the zero source vector
over its cells has length 121, and the write src[60] = 1 hits a valid
index, so the out-of-bounds branch of the indexed assignment is not
taken. -/
theorem C10_source_index_in_bounds :
    (CartGrid [11, 11]).num_cells = 121 ∧
    (npZeros (CartGrid [11, 11]).num_cells).length = 121 ∧
    (npSetItem (npZeros (CartGrid [11, 11]).num_cells) 60 1).isSome = true := by
  refine ⟨rfl, ?_, ?_⟩
  · simp [npZeros, CartGrid]
  · simp [npSetItem, npZeros, CartGrid]

/-- Claim C2: the single-grid behaviour of the notebook is the four glue
steps, grid construction, parameter wrapping, solve, plot, in that order
(the step labels along the trace never decrease and all four occur), with
no call to locally implemented code and with each of the named steps
provided by the pre-built external library. -/
theorem C2_single_grid_glue :
    List.Pairwise (fun a b => stepIndex a ≤ stepIndex b)
      (singleGridScript.map stepOf) ∧
    GlueStep.makeGrid ∈ singleGridScript.map stepOf ∧
    GlueStep.wrapParams ∈ singleGridScript.map stepOf ∧
    GlueStep.runSolve ∈ singleGridScript.map stepOf ∧
    GlueStep.plotResult ∈ singleGridScript.map stepOf ∧
    (singleGridScript.all (fun c => provider c != Provider.localCode)) = true ∧
    provider LibCall.cartGridNew = Provider.porepy ∧
    provider LibCall.computeGeometryCall = Provider.porepy ∧
    provider LibCall.parametersNew = Provider.porepy ∧
    provider LibCall.solveCall = Provider.porepy ∧
    provider LibCall.plotGridCall = Provider.porepy := by
  decide

/-- Claim C3: the parameter container stores each physical parameter keyed
by the physics label: after set_bc with the flow label followed by
set_source with the flow label, the boundary condition retrievable under
flow is still the one that was set, and the retrievable source is the one
that was set. -/
theorem C3_parameters_keyed_frame (p : Parameters)
    (bc_cond : BoundaryCondition) (src : List ℚ) :
    ((p.set_bc "flow" bc_cond).set_source "flow" src).get_bc "flow" =
      some bc_cond ∧
    ((p.set_bc "flow" bc_cond).set_source "flow" src).get_source "flow" =
      some src := by
  constructor <;>
    simp [Parameters.set_bc, Parameters.set_source, Parameters.get_bc,
      Parameters.get_source, List.lookup]

set_option maxRecDepth 10000 in
/-- Claim C4: the bucket meshing.cart_grid builds for the single fracture
from (0, 5) to (10, 5) in a [10, 10] domain has members of dimension 2 or
1 only, exactly one 2-d matrix grid, and carries coupling edges that
relate each cell of the 1-d fracture grid to an existing face of the 2-d
grid; assign_node_ordering changes neither the member grids nor the
coupling edges. -/
theorem C4_mixed_dimensional_bucket :
    (gbExample.nodes.all fun n => n.grid.dim == 2 || n.grid.dim == 1) = true ∧
    (gbExample.nodes.filter fun n => n.grid.dim == 2).length = 1 ∧
    gbExample.edges ≠ [] ∧
    (gbExample.edges.all fun e => validEdge gbExample e) = true ∧
    gbExample.assign_node_ordering.nodes = gbExample.nodes ∧
    gbExample.assign_node_ordering.edges = gbExample.edges := by
  refine ⟨by decide, by decide, by decide, by decide, rfl, rfl⟩

/-- Splitting a vector over the bucket nodes keeps the node count. -/
theorem splitNodes_length (key : String) :
    ∀ (ns : List GridNode) (x : List ℚ),
      (splitNodes key ns x).length = ns.length := by
  intro ns
  induction ns with
  | nil => intro x; rfl
  | cons n rest ih => intro x; simp [splitNodes, ih]

/-- Splitting a vector over the bucket nodes changes no member grid. -/
theorem splitNodes_map_grid (key : String) :
    ∀ (ns : List GridNode) (x : List ℚ),
      (splitNodes key ns x).map (fun n => n.grid) =
        ns.map (fun n => n.grid) := by
  intro ns
  induction ns with
  | nil => intro x; rfl
  | cons n rest ih => intro x; simp [splitNodes, ih]

/-- After a split, node i of the bucket holds, under the given key, the
slice of the global vector that starts at its cell offset and is as long
as its cell count. -/
theorem splitNodes_lookup (key : String) :
    ∀ (ns : List GridNode) (x : List ℚ) (i : Nat) (h : i < ns.length)
      (h' : i < (splitNodes key ns x).length),
      ((splitNodes key ns x).get ⟨i, h'⟩).data.lookup key =
        some ((x.drop (cellOffset ns i)).take
          ((ns.get ⟨i, h⟩).grid.num_cells)) := by
  intro ns
  induction ns with
  | nil => intro x i h h'; exact absurd h (Nat.not_lt_zero i)
  | cons n rest ih =>
    intro x i h h'
    cases i with
    | zero => simp [splitNodes, cellOffset, List.lookup]
    | succ j =>
      have hj : j < rest.length := Nat.lt_of_succ_lt_succ h
      have hj' : j < (splitNodes key rest (x.drop n.grid.num_cells)).length := by
        rw [splitNodes_length]; exact hj
      have step := ih (x.drop n.grid.num_cells) j hj hj'
      have hoff : cellOffset (n :: rest) (j + 1) =
          n.grid.num_cells + cellOffset rest j := rfl
      have hdrop : (x.drop n.grid.num_cells).drop (cellOffset rest j) =
          x.drop (cellOffset (n :: rest) (j + 1))  := by
        rw [List.drop_drop, hoff, Nat.add_comm]
      rw [hdrop] at step
      simpa [splitNodes] using step

/-- Claim C1: for every grid bucket, the elliptic driver's solve produces
a scalar pressure field, one value per cell of the bucket, and a
subsequent split under the pressure label distributes that solution back:
the member grids are untouched and each sub-grid node holds its slice of
the solution in its data under the pressure key. -/
theorem C1_solve_split_pressure (gb : GridBucket) :
    ((ellipticBaseConstruct gb).solve).1.length = gb.totalCells ∧
    ((((ellipticBaseConstruct gb).solve.2.split "pressure").gb.nodes.map
        fun n => n.grid) = gb.nodes.map fun n => n.grid) ∧
    ∀ (i : Nat) (h : i < gb.nodes.length)
      (h' : i <
        ((ellipticBaseConstruct gb).solve.2.split "pressure").gb.nodes.length),
      ((((ellipticBaseConstruct gb).solve.2.split
          "pressure").gb.nodes.get ⟨i, h'⟩).data.lookup "pressure") =
        some (((((ellipticBaseConstruct gb).solve).1).drop
            (cellOffset gb.nodes i)).take
          ((gb.nodes.get ⟨i, h⟩).grid.num_cells)) := by
  refine ⟨?_, ?_, ?_⟩
  · have hp : ((ellipticBaseConstruct gb).solve).1 = pressureField gb := rfl
    rw [hp, pressureField, List.length_map, List.length_range]
  · simpa [EllipticProblem.solve, EllipticProblem.split,
      ellipticBaseConstruct] using
      splitNodes_map_grid "pressure" gb.nodes (pressureField gb)
  · intro i h h'
    exact splitNodes_lookup "pressure" gb.nodes (pressureField gb) i h h'

/-- Witness for C1 at the concrete two-node bucket of the notebook,
reading the pressure slice of the fracture node. -/
theorem C1_solve_split_witness :
    (((ellipticBaseConstruct gbExample).solve.2.split
        "pressure").gb.nodes.get ⟨1, by decide⟩).data.lookup "pressure" =
      some (((((ellipticBaseConstruct gbExample).solve).1).drop
          (cellOffset gbExample.nodes 1)).take
        ((gbExample.nodes.get ⟨1, by decide⟩).grid.num_cells)) :=
  (C1_solve_split_pressure gbExample).2.2 1 (by decide) (by decide)

/-- Claim C5: the flux discretization is a selectable choice: attribute
lookup on the base Elliptic driver yields the TPFA discretizer, lookup on
the DarcyMPFA subclass yields the multi-point MpfaMixDim discretizer, and
the subclass behaves identically otherwise: construction on any bucket
produces the same object and every attribute other than flux_disc (its
delegating __init__ aside) resolves to the same implementation. -/
theorem C5_flux_disc_selectable :
    (mroLookup ellipticMro "flux_disc").bind fluxDiscResult =
      some FluxDiscretizer.tpfaMixDim ∧
    (mroLookup darcyMpfaMro "flux_disc").bind fluxDiscResult =
      some FluxDiscretizer.mpfaMixDim ∧
    (∀ gb : GridBucket,
      (mroLookup darcyMpfaMro "__init__").bind (fun m => constructorSem m gb) =
        (mroLookup ellipticMro "__init__").bind (fun m => constructorSem m gb)) ∧
    ∀ attr : String, attr ≠ "flux_disc" → attr ≠ "__init__" →
      mroLookup darcyMpfaMro attr = mroLookup ellipticMro attr := by
  refine ⟨rfl, rfl, fun gb => rfl, ?_⟩
  intro attr h1 h2
  have e1 : (attr == "flux_disc") = false := beq_eq_false_iff_ne.mpr h1
  have e2 : (attr == "__init__") = false := beq_eq_false_iff_ne.mpr h2
  simp [mroLookup, darcyMpfaCls, ellipticCls, List.lookup, e1, e2]

/-- Witness for C5: the DarcyMPFA constructor agrees with the Elliptic
one on the concrete bucket, and the solve attribute resolves alike. -/
theorem C5_flux_disc_witness :
    ((mroLookup darcyMpfaMro "__init__").bind
        (fun m => constructorSem m gbExample) =
      (mroLookup ellipticMro "__init__").bind
        (fun m => constructorSem m gbExample)) ∧
    mroLookup darcyMpfaMro "solve" = mroLookup ellipticMro "solve" :=
  ⟨C5_flux_disc_selectable.2.2.1 gbExample,
   C5_flux_disc_selectable.2.2.2 "solve" (by decide) (by decide)⟩

/-- Membership in the argwhere index list means the index is in range and
the mask is true there. -/
theorem mem_ravelArgwhere (bs : List Bool) (i : Nat) :
    i ∈ ravelArgwhere bs ↔ i < bs.length ∧ bs.getD i false = true := by
  simp [ravelArgwhere, List.mem_filter, List.mem_range]

/-- The face tag mask at an in-range index is the tag test of that face. -/
theorem has_face_tag_getD (g : Grid) (t : FaceTag) (i : Nat)
    (h : i < g.faceTags.length) :
    (g.has_face_tag t).getD i false = decide (t ∈ g.faceTags.getD i []) := by
  unfold Grid.has_face_tag
  rw [List.getD_eq_getElem?_getD, List.getElem?_map, List.getElem?_eq_getElem h,
      List.getD_eq_getElem?_getD, List.getElem?_eq_getElem h]
  rfl

/-- Claim C9: FractureDomain construction runs exactly the MatrixDomain
construction, because the method spelled __init is not found by the
__init__ lookup; bc resolves on both classes to the MatrixDomain body;
and that body marks every face tagged DOMAIN_BOUNDARY as Dirichlet, every
label being dir. -/
theorem C9_constructor_and_bc_inherited :
    mroLookup fractureDomainMro "__init__" =
      mroLookup matrixDomainMro "__init__" ∧
    mroLookup fractureDomainMro "__init__" ≠
      some MethodImpl.fractureDomainNewTypo ∧
    (∀ (g : Grid) (d : List (String × List ℚ)),
      (mroLookup fractureDomainMro "__init__").bind
          (fun m => dataConstructorSem m g d) =
        (mroLookup matrixDomainMro "__init__").bind
          (fun m => dataConstructorSem m g d)) ∧
    mroLookup fractureDomainMro "bc" = some MethodImpl.matrixDomainBc ∧
    mroLookup matrixDomainMro "bc" = some MethodImpl.matrixDomainBc ∧
    (∀ (g : Grid) (i : Nat), i < g.num_faces →
      FaceTag.domainBoundary ∈ g.faceTags.getD i [] →
      i ∈ (MatrixDomain.bc g).faces) ∧
    ∀ (g : Grid), ∀ s ∈ (MatrixDomain.bc g).cond, s = "dir" := by
  refine ⟨rfl, by decide, fun g d => rfl, rfl, rfl, ?_, ?_⟩
  · intro g i hi htag
    have hlt : i < g.faceTags.length := hi
    simp only [MatrixDomain.bc]
    rw [mem_ravelArgwhere]
    refine ⟨?_, ?_⟩
    · simpa [Grid.has_face_tag] using hlt
    · rw [has_face_tag_getD g FaceTag.domainBoundary i hlt]
      exact decide_eq_true htag
  · intro g s hs
    simp only [MatrixDomain.bc] at hs
    exact List.eq_of_mem_replicate hs

/-- Witness for C9 at the concrete grid CartGrid [3, 2]: face 0 is on the
domain boundary and is marked, and the concrete label list is all dir. -/
theorem C9_inherited_witness :
    0 ∈ (MatrixDomain.bc gExample).faces ∧ ("dir" : String) = "dir" :=
  ⟨C9_constructor_and_bc_inherited.2.2.2.2.2.1 gExample 0 (by decide)
      (by decide),
   C9_constructor_and_bc_inherited.2.2.2.2.2.2 gExample "dir" (by decide)⟩

/-- Claim C6: compute_geometry is a deterministic function of the raw
coordinates: two grids with identical node coordinates and identical
cell, face and node connectivity get identical geometric quantities. -/
theorem C6_compute_geometry_deterministic (t1 t2 : GridTopology)
    (hn : t1.nodes = t2.nodes) (hf : t1.faceNodes = t2.faceNodes)
    (hc : t1.cellNodes = t2.cellNodes) :
    compute_geometry t1 = compute_geometry t2 := by
  cases t1
  cases t2
  cases hn
  cases hf
  cases hc
  rfl

/-- Witness for C6 on two syntactically different descriptions of the
unit square whose raw data are equal. -/
theorem C6_deterministic_witness :
    compute_geometry tExample = compute_geometry tExampleB :=
  C6_compute_geometry_deterministic tExample tExampleB (by norm_num
    [tExample, tExampleB]) rfl rfl
